import Mathlib

/-!
Shallow embedding of `mcp_llms/llms_txt.py` (the llms.txt locator / parser
tool) and proofs about its fallback-chain behaviour.

The Python module is sequential and effect-light: its only effects are
outbound HTTP GET requests and calls to an external structured-output LLM.
We model those effects with an explicit oracle (`World`) and make every
function return, next to its value, the list of HTTP requests it issued, in
order.  Python truthiness on `str | None` values (`if content:`) is modelled
by `truthy`, string slicing `content[:100000]` by `takeS`, `str.split('/')`
by `splitSlash`, `'/'.join` by `joinSlash`, `'\n'.join` by `joinNl`,
`str.replace` by `pyReplace`, and `str.rstrip('/')` / `str.lstrip('/')` by
`rstripSlash` / `lstripSlash`.
-/

namespace McpLlms

/-! ### Python string primitives -/

/-- Python slicing on code points: the first `n` characters of `s`. -/
def takeS (s : String) (n : Nat) : String := ⟨s.data.take n⟩

/-- Python `s.startswith(pre)` over code points. -/
def startsWithS (s pre : String) : Bool := pre.data.isPrefixOf s.data

/-- Python `s.endswith(suf)` over code points. -/
def endsWithS (s suf : String) : Bool := suf.data.isSuffixOf s.data

/-- Python `s.split('/')`: splits at every slash; `"".split('/') = [""]`. -/
def splitSlashAux : List Char → List Char → List String
  | [], acc => [⟨acc.reverse⟩]
  | c :: cs, acc =>
    if c == '/' then (⟨acc.reverse⟩ : String) :: splitSlashAux cs []
    else splitSlashAux cs (c :: acc)

/-- Python `s.split('/')`. -/
def splitSlash (s : String) : List String := splitSlashAux s.data []

/-- Python `'/'.join(parts)`. -/
def joinSlash : List String → String
  | [] => ""
  | [s] => s
  | s :: ss => s ++ "/" ++ joinSlash ss

/-- Python `'\n'.join(parts)`. -/
def joinNl : List String → String
  | [] => ""
  | [s] => s
  | s :: ss => s ++ "\n" ++ joinNl ss

/-- Worker for `pyReplace`: `skip` counts pattern characters still to be
consumed after a match was found at an earlier position. -/
def replaceAux (pat repl : List Char) : Nat → List Char → List Char
  | _, [] => []
  | skip, c :: cs =>
    match skip with
    | n + 1 => replaceAux pat repl n cs
    | 0 =>
      if pat.isPrefixOf (c :: cs) then repl ++ replaceAux pat repl (pat.length - 1) cs
      else c :: replaceAux pat repl 0 cs

/-- Python `s.replace(pat, repl)`: replace all non-overlapping occurrences,
left to right (used with the non-empty patterns `https://` and `http://`). -/
def pyReplace (s pat repl : String) : String := ⟨replaceAux pat.data repl.data 0 s.data⟩

/-- Python `s.rstrip('/')`. -/
def rstripSlash (s : String) : String := ⟨(s.data.reverse.dropWhile (· == '/')).reverse⟩

/-- Python `s.lstrip('/')`. -/
def lstripSlash (s : String) : String := ⟨s.data.dropWhile (· == '/')⟩

/-- Python truthiness of a `str | None` value: `None` and `""` are falsy. -/
def truthy : Option String → Bool
  | none => false
  | some s => !s.data.isEmpty

/-! ### Data model and effect oracle -/

/-- Outcome of one HTTP GET as seen by `httpx`: either a response with a
status code and body text, or a transport-level failure (connection error,
TLS error, timeout, ...). -/
inductive HttpResult where
  | response (status : Nat) (text : String)
  | failure
deriving DecidableEq

/-- One outbound GET request: the URL and the headers dict passed by the
caller (`none` models Python `headers=None`, i.e. no caller-supplied
headers). -/
structure Request where
  url : String
  headers : Option (List (String × String))
deriving DecidableEq

/-- A documentation link record, the schema of the `links` tool function in
the source: `\x7burl, title, description\x7d`. -/
structure Link where
  url : String
  title : String
  description : String
deriving DecidableEq

/-- The effect oracle: `net` decides every HTTP GET, `llmLinks` every
structured-output call with the `links` schema, `llmIsDev` every structured
call with the `is_dev` boolean schema (the list of returned values, the code
takes the head or defaults to false), `llmChat` the one free-text chat call,
and `jinaKey` the `JINA_READER_KEY` environment variable. -/
structure World where
  net : Request → HttpResult
  llmLinks : String → List Link
  llmIsDev : String → List Bool
  llmChat : String → String
  jinaKey : Option String

/-- Module constant `USER_AGENT`. -/
def USER_AGENT : String := "llms-txt-parser/1.0"

/-- httpx `response.raise_for_status` succeeds exactly on 2xx statuses. -/
def is_success (st : Nat) : Bool := 200 ≤ st && st ≤ 299

/-! ### Embedded source functions -/

/-- Embeds `fetch_markdown(url, headers)`: one GET; the body text on a 2xx
response, `None` on any non-2xx status or transport failure (the code wraps
the request and `raise_for_status` in `try ... except Exception: return
None`).  Second component: the requests issued (always exactly one). -/
def fetch_markdown (w : World) (url : String) (headers : Option (List (String × String))) :
    Option String × List Request :=
  ((match w.net ⟨url, headers⟩ with
    | HttpResult.response st text => if is_success st then some text else none
    | HttpResult.failure => none),
   [⟨url, headers⟩])

/-- Embeds `check_path_exists(base_url, path)`:
fetch `base_url.rstrip('/') + '/' + path.lstrip('/')` with no headers. -/
def check_path_exists (w : World) (base_url path : String) : Option String × List Request :=
  fetch_markdown w (rstripSlash base_url ++ "/" ++ lstripSlash path) none

/-- The `paths_to_check` list of `find_llms_txt`, verbatim from the source:
note that `docs/llms.txt` appears twice (indices 1 and 4). -/
def paths_to_check : List String :=
  ["llms.txt", "docs/llms.txt", "documentation/llms.txt", "doc/llms.txt", "docs/llms.txt",
   "llms-ctx.txt", "llms-ctx-full.txt", "api/llms.txt", "reference/llms.txt"]

/-- URL normalisation at the top of `find_llms_txt`: add `https://` when no
scheme is present. -/
def normalizeUrl (url : String) : String :=
  if startsWithS url ("http://") || startsWithS url ("https://") then url
  else ("https://" ++ url)

/-- The candidate-probing loop of `find_llms_txt`: try each path under
`base_url`, return the first truthy content with its resolved URL. -/
def findLoop (w : World) (base_url : String) :
    List String → (Option String × Option String) × List Request
  | [] => ((none, none), [])
  | p :: ps =>
    let c := check_path_exists w base_url p
    if truthy c.1 then ((c.1, some (base_url ++ "/" ++ p)), c.2)
    else
      let r := findLoop w base_url ps
      (r.1, c.2 ++ r.2)

/-- Embeds `find_llms_txt(url)`: normalise the URL, derive the base
`scheme://host` when the split has at least three parts, probe the candidate
paths in order, then — only if the normalised URL ends in `.txt` — try the
URL itself; otherwise return the absent pair. -/
def find_llms_txt (w : World) (url0 : String) : (Option String × Option String) × List Request :=
  let url := normalizeUrl url0
  let parts := splitSlash url
  let base_url := if 3 ≤ parts.length then joinSlash (parts.take 3) else url
  let r := findLoop w base_url paths_to_check
  if truthy r.1.1 then r
  else if endsWithS url (".txt") then
    let f := fetch_markdown w url none
    if truthy f.1 then ((f.1, some url), r.2 ++ f.2)
    else ((none, none), r.2 ++ f.2)
  else ((none, none), r.2)

/-! Prompt templates.  The fixed instruction text of each f-string is
reproduced from the source with indentation normalised and quoted
punctuation slightly smoothed; what matters for the proofs is which dynamic
values are interpolated, and where. -/

/-- Fixed text of the `is_developer_tool` prompt before the interpolated
(truncated) content. -/
def isDevPre : String :=
  "\nAnalyze the following webpage content and determine if it appears to be documentation\nfor a developer tool, API, library, framework, or software development resource.\nFocus on identifying technical terminology, code examples, API reference materials,\ninstallation instructions, or other indicators of developer documentation.\n\n<webpage-content>\n"

/-- Fixed text of the `is_developer_tool` prompt after the content. -/
def isDevPost : String :=
  "\n</webpage-content>\n\nReturn TRUE if this is likely developer documentation, or FALSE if not.\n"

/-- The `is_developer_tool` classification prompt: the page content is
interpolated truncated to its first 100000 characters. -/
def isDevPrompt (content : String) : String :=
  isDevPre ++ takeS content 100000 ++ isDevPost

/-- Fixed text of the `find_docs_links_with_claude` prompt before the
interpolated (truncated) content. -/
def docsPre : String :=
  "\nAnalyze the following webpage content and identify links that appear to lead to\ndocumentation pages, API references, tutorials, or other developer resources.\n\nWebpage content:\n"

/-- Fixed text between the content and the interpolated source URL
(including the stray in-string comment about limiting content length). -/
def docsMid : String :=
  "  # Limit content length to avoid token limits\n\nExtract all links that appear to point to documentation. For each link, provide:\n1. The URL (if relative, prepend \""

/-- Fixed text of the `find_docs_links_with_claude` prompt after the URL. -/
def docsPost : String :=
  "\" if it does not start with a slash)\n2. A title describing the resource\n3. A brief description of what content you expect to find there\n\nFocus on links that would be most valuable for a developer trying to understand how to use this tool.\n"

/-- The link-extraction prompt: content truncated to 100000 characters, then
the source URL interpolated into the instruction. -/
def docsPrompt (url content : String) : String :=
  docsPre ++ takeS content 100000 ++ docsMid ++ url ++ docsPost

/-- Fixed text of the relevance-ranking prompt before the manifest content
(which is interpolated untruncated). -/
def rankPre : String :=
  "Given this llms.txt content and user query, analyze which documentation links are most relevant.\nThe llms.txt format is a standardized way to provide LLM-friendly documentation, containing a project overview\nand links to detailed documentation in markdown format.\n\nllms.txt content:\n"

/-- Fixed text between the manifest content and the query. -/
def rankMid : String := "\n\nUser query: "

/-- The relevance-ranking prompt of `parse_llms_txt`. -/
def rankPrompt (llms_content query : String) : String :=
  rankPre ++ llms_content ++ rankMid ++ query ++ "\n"

/-- Fixed text of the stage-3 chat-extraction prompt before the (full,
untruncated) proxy-cleaned content. -/
def chatPre : String :=
  "Below is documentation content for a developer tool. Based on the user query,\nextract the most relevant sections that would help answer the query.\nFormat your response as markdown and include code examples when available.\n\nDocumentation content:\n"

/-- Fixed text between the proxy-cleaned content and the query. -/
def chatMid : String := "\n\nUser query: "

/-- The stage-3 chat prompt of `parse_llms_txt`. -/
def chatPrompt (jina_content query : String) : String :=
  chatPre ++ jina_content ++ chatMid ++ query ++ "\n"

/-- The headers dict built by `use_jina_reader`: the module `USER_AGENT`,
plus `x-api-key` when the environment supplies a key. -/
def jinaHeaders (key : Option String) : List (String × String) :=
  ("User-Agent", USER_AGENT) :: (match key with | some k => [("x-api-key", k)] | none => [])

/-- The proxy URL built by `use_jina_reader`:
`"https://r.jina.ai/" + url.replace('https://','').replace('http://','')`. -/
def jinaUrlOf (url : String) : String :=
  "https://r.jina.ai/" ++ pyReplace (pyReplace url ("https://") ("")) ("http://") ("")

/-- Embeds `use_jina_reader(url)`: one fetch of the proxy URL carrying the
`jinaHeaders`. -/
def use_jina_reader (w : World) (url : String) : Option String × List Request :=
  fetch_markdown w (jinaUrlOf url) (some (jinaHeaders w.jinaKey))

/-- Embeds `is_developer_tool(url)`: absent or empty proxy content
short-circuits to false; otherwise the structured boolean call decides
(`response[0] if response else False`). -/
def is_developer_tool (w : World) (url : String) : Bool × List Request :=
  let c := use_jina_reader w url
  if !truthy c.1 then (false, c.2)
  else
    ((match w.llmIsDev (isDevPrompt (c.1.getD (""))) with
      | [] => false
      | b :: _ => b), c.2)

/-- The relative-URL resolution loop body of `find_docs_links_with_claude`:
links already carrying an http/https scheme are untouched; root-relative
links are prefixed with the first three slash-parts of the source URL when
it has at least three; other relative links are appended to the source URL,
inserting a slash unless it already ends in one. -/
def resolveLink (url : String) (link : Link) : Link :=
  if startsWithS link.url ("http://") || startsWithS link.url ("https://") then link
  else if startsWithS link.url ("/") then
    let parts := splitSlash url
    if 3 ≤ parts.length then { link with url := joinSlash (parts.take 3) ++ link.url }
    else link
  else if endsWithS url ("/") then { link with url := url ++ link.url }
  else { link with url := url ++ "/" ++ link.url }

/-- Embeds `find_docs_links_with_claude(url, content)`: when the passed
content is falsy the page is fetched (headerless), and a falsy fetch yields
the empty link list; otherwise the structured extraction call runs on the
truncated content and every returned link is resolved with `resolveLink`. -/
def find_docs_links_with_claude (w : World) (url : String) (content0 : Option String) :
    List Link × List Request :=
  if truthy content0 then
    ((w.llmLinks (docsPrompt url (content0.getD ("")))).map (resolveLink url), [])
  else
    let f := fetch_markdown w url none
    if truthy f.1 then
      ((w.llmLinks (docsPrompt url (f.1.getD ("")))).map (resolveLink url), f.2)
    else ([], f.2)

/-- The formatted block `parse_llms_txt` emits for one link (identical code
in stage 3 and stage 4): title/description/content block on a truthy fetch,
otherwise the could-not-fetch placeholder. -/
def blockOf (w : World) (l : Link) : String :=
  let content := (fetch_markdown w l.url none).1
  if truthy content then
    "# " ++ l.title ++ "\n" ++ l.description ++ "\n\n" ++ content.getD ("") ++ "\n---\n"
  else ("Could not fetch content from " ++ l.url ++ "\n---\n")

/-- The per-link fetch-and-format loop of `parse_llms_txt` (stages 3 and 4):
one block per link, in order, plus the requests issued. -/
def fetchBlocks (w : World) : List Link → List String × List Request
  | [] => ([], [])
  | l :: ls =>
    let rest := fetchBlocks w ls
    (blockOf w l :: rest.1, (fetch_markdown w l.url none).2 ++ rest.2)

/-- The stage-2 loop of `parse_llms_txt`: run `find_llms_txt` on each
discovered link, stopping at the first truthy manifest; `acc` is the
(reassigned) `(llms_content, llms_url)` pair entering the loop. -/
def stage2Loop (w : World) (acc : Option String × Option String) :
    List Link → (Option String × Option String) × List Request
  | [] => (acc, [])
  | l :: ls =>
    let r := find_llms_txt w l.url
    if truthy r.1.1 then (r.1, r.2)
    else
      let rest := stage2Loop w r.1 ls
      (rest.1, r.2 ++ rest.2)

/-- Stages 1 and 2 of `parse_llms_txt` (lines 177 to 194): direct manifest
lookup, then — when that is falsy — a headerless fetch of the raw URL,
link discovery on it, and the stage-2 probing loop. -/
def stage12 (w : World) (url : String) : (Option String × Option String) × List Request :=
  let r1 := find_llms_txt w url
  if truthy r1.1.1 then r1
  else
    let pc := fetch_markdown w url none
    if truthy pc.1 then
      let dl := find_docs_links_with_claude w url pc.1
      let r2 := stage2Loop w r1.1 dl.1
      (r2.1, r1.2 ++ pc.2 ++ dl.2 ++ r2.2)
    else (r1.1, r1.2 ++ pc.2)

/-- Stage 3 of `parse_llms_txt` (lines 196 to 247): gate on the classifier,
fetch proxy-cleaned content, extract links from it; with links, emit their
blocks; with none, fall back to the chat extraction.  Returns `some` output
when the Python code returns inside this block, `none` when it falls
through. -/
def stage3 (w : World) (url query : String) : Option String × List Request :=
  let d := is_developer_tool w url
  if d.1 then
    let j := use_jina_reader w url
    if truthy j.1 then
      let dl := find_docs_links_with_claude w url j.1
      let fb := fetchBlocks w dl.1
      if fb.1.isEmpty then
        (some ("# Relevant information from " ++ url ++ "\n\n" ++
               w.llmChat (chatPrompt (j.1.getD ("")) query)),
         d.2 ++ j.2 ++ dl.2 ++ fb.2)
      else (some (joinNl fb.1), d.2 ++ j.2 ++ dl.2 ++ fb.2)
    else (none, d.2 ++ j.2)
  else (none, d.2)

/-- The terminal failure message of `parse_llms_txt`. -/
def notFoundMsg (url : String) : String :=
  "Could not find llms.txt or extract documentation from " ++ url ++ "."

/-- The empty-ranking message of `parse_llms_txt`. -/
def noRelevantMsg : String := "No relevant documentation found in llms.txt."

/-- Embeds the tool entry point `parse_llms_txt(url, query)`: stages 1/2,
then stage 3 (which returns directly when it produces output), then the
stage-4 manifest processing, and finally the terminal failure message.  In
the source, stage 3 runs before the `if llms_content` test but only when
`llms_content` is falsy, so guarding stage 3 by that falsiness is the same
control flow. -/
def parse_llms_txt (w : World) (url query : String) : String × List Request :=
  let s12 := stage12 w url
  if truthy s12.1.1 then
    let relevant_links := w.llmLinks (rankPrompt (s12.1.1.getD ("")) query)
    let fb := fetchBlocks w relevant_links
    (if fb.1.isEmpty then noRelevantMsg else joinNl fb.1, s12.2 ++ fb.2)
  else
    let s3 := stage3 w url query
    match s3.1 with
    | some out => (out, s12.2 ++ s3.2)
    | none => (notFoundMsg url, s12.2 ++ s3.2)

/-! ### Concrete worlds used in witnesses, counterexamples and evaluations -/

/-- A world in which every HTTP request fails at transport level and every
external-model call returns nothing. -/
def wFail : World :=
  { net := fun _ => HttpResult.failure
    llmLinks := fun _ => []
    llmIsDev := fun _ => []
    llmChat := fun _ => ""
    jinaKey := none }

/-- A world in which every HTTP request yields a 200 response with body
`hello`. -/
def w200 : World := { wFail with net := fun _ => HttpResult.response 200 ("hello") }

/-- A world in which every HTTP request yields a 404 response. -/
def w404 : World := { wFail with net := fun _ => HttpResult.response 404 ("nope") }

/-- A world in which every HTTP request yields a 200 response with an empty
body. -/
def wEmpty : World := { wFail with net := fun _ => HttpResult.response 200 ("") }

/-- A world whose link extractor returns one root-relative and one plain
relative link, with all fetches failing. -/
def wC2 : World :=
  { wFail with
    llmLinks := fun _ =>
      [⟨"/api/ref", "API reference", "the API"⟩, ⟨"ref", "Reference", "the reference"⟩] }

/-! ### C1 -/

/-- C1 (claim as stated is violated by the code): evaluating the Locator on
the base URL `https://example.com` in a world where every fetch fails shows
that it issues nine probes — `docs/llms.txt` is fetched twice, at the second
and fifth positions, because the source's `paths_to_check` list duplicates
that entry — rather than exactly one fetch per documented candidate, and no
direct fetch of the URL itself, returning the absent pair. -/
theorem C1_probe_trace_eval :
    ((find_llms_txt wFail ("https://example.com")).2.map Request.url =
      ["https://example.com/llms.txt", "https://example.com/docs/llms.txt",
       "https://example.com/documentation/llms.txt", "https://example.com/doc/llms.txt",
       "https://example.com/docs/llms.txt", "https://example.com/llms-ctx.txt",
       "https://example.com/llms-ctx-full.txt", "https://example.com/api/llms.txt",
       "https://example.com/reference/llms.txt"]) ∧
    (find_llms_txt wFail ("https://example.com")).1 = (none, none) := by
  decide

/-! ### C2 -/

/-- C2: relative-link resolution in the Link Extractor post-processing.  A
root-relative link `/api/ref` discovered on `https://example.com/start`
resolves to `https://example.com/api/ref`, and a plain relative link `ref`
resolves to `https://example.com/start/ref`, with or without a trailing
slash on the source URL: no double slash, no dropped path segment. -/
theorem C2_relative_resolution :
    ((find_docs_links_with_claude wC2 ("https://example.com/start") (some ("page"))).1.map
        Link.url =
      ["https://example.com/api/ref", "https://example.com/start/ref"]) ∧
    ((find_docs_links_with_claude wC2 ("https://example.com/start/") (some ("page"))).1.map
        Link.url =
      ["https://example.com/api/ref", "https://example.com/start/ref"]) := by
  decide

/-! ### C3 -/

/-- C3: the Fetcher is a total function (the embedding returns an
`Option String`, never an exception): it issues exactly one request (no
retry), a 2xx response yields the body text, and a non-2xx response or a
transport failure yields `none`. -/
theorem C3_fetch_total (w : World) (url : String) (headers : Option (List (String × String))) :
    (fetch_markdown w url headers).2 = [⟨url, headers⟩] ∧
    (∀ st text, w.net ⟨url, headers⟩ = HttpResult.response st text → is_success st = true →
      (fetch_markdown w url headers).1 = some text) ∧
    (∀ st text, w.net ⟨url, headers⟩ = HttpResult.response st text → is_success st = false →
      (fetch_markdown w url headers).1 = none) ∧
    (w.net ⟨url, headers⟩ = HttpResult.failure → (fetch_markdown w url headers).1 = none) := by
  refine ⟨rfl, ?_, ?_, ?_⟩
  · intro st text hnet hok
    simp [fetch_markdown, hnet, hok]
  · intro st text hnet hbad
    simp [fetch_markdown, hnet, hbad]
  · intro hnet
    simp [fetch_markdown, hnet]

/-- Witness for C3 at concrete worlds: a 200 response with body `hello`
yields that body, a 404 yields `none`, a transport failure yields `none`,
and exactly one request is issued. -/
theorem C3_fetch_total_witness :
    (fetch_markdown w200 ("u") none).1 = some ("hello") ∧
    (fetch_markdown w404 ("u") none).1 = none ∧
    (fetch_markdown wFail ("u") none).1 = none ∧
    (fetch_markdown w200 ("u") none).2 = [⟨"u", none⟩] :=
  ⟨(C3_fetch_total w200 ("u") none).2.1 200 ("hello") rfl (by decide),
   (C3_fetch_total w404 ("u") none).2.2.1 404 ("nope") rfl (by decide),
   (C3_fetch_total wFail ("u") none).2.2.2 rfl,
   (C3_fetch_total w200 ("u") none).1⟩

/-! ### C4 -/

/-- Holds of a request issued with no caller-supplied headers
(Python `headers=None`). -/
def noHdr (r : Request) : Bool :=
  match r.headers with
  | none => true
  | some _ => false

/-- Holds of a request whose headers are either absent or exactly the
content-cleaning-proxy headers for key `k`. -/
def okH (k : Option String) (r : Request) : Bool :=
  decide (r.headers = none ∨ r.headers = some (jinaHeaders k))

theorem noHdr_okH (k : Option String) (r : Request) (h : noHdr r = true) : okH k r = true := by
  unfold noHdr at h
  unfold okH
  cases hr : r.headers with
  | none => simp [hr]
  | some hs => rw [hr] at h; exact absurd h (by simp)

theorem all_okH_of_all_noHdr (k : Option String) (l : List Request)
    (h : l.all noHdr = true) : l.all (okH k) = true := by
  rw [List.all_eq_true] at h ⊢
  exact fun r hr => noHdr_okH k r (h r hr)

theorem findLoop_headers_none (w : World) (base : String) :
    ∀ ps : List String, (findLoop w base ps).2.all noHdr = true := by
  intro ps
  induction ps with
  | nil => rfl
  | cons p ps ih =>
    simp only [findLoop]
    split
    · rfl
    · simpa [check_path_exists, fetch_markdown, List.all_append, noHdr] using ih

theorem find_llms_txt_headers_none (w : World) (url : String) :
    (find_llms_txt w url).2.all noHdr = true := by
  unfold find_llms_txt
  dsimp only
  repeat' split
  all_goals
    simp [fetch_markdown, List.all_append, noHdr, findLoop_headers_none]

theorem find_docs_headers_none (w : World) (url : String) (c0 : Option String) :
    (find_docs_links_with_claude w url c0).2.all noHdr = true := by
  unfold find_docs_links_with_claude
  dsimp only
  repeat' split
  all_goals simp [fetch_markdown, noHdr]

theorem fetchBlocks_headers_none (w : World) :
    ∀ ls : List Link, (fetchBlocks w ls).2.all noHdr = true := by
  intro ls
  induction ls with
  | nil => rfl
  | cons l ls ih => simpa [fetchBlocks, fetch_markdown, List.all_append, noHdr] using ih

theorem stage2Loop_headers_none (w : World) :
    ∀ (ls : List Link) (acc : Option String × Option String),
      (stage2Loop w acc ls).2.all noHdr = true := by
  intro ls
  induction ls with
  | nil => intro acc; rfl
  | cons l ls ih =>
    intro acc
    simp only [stage2Loop]
    split
    · exact find_llms_txt_headers_none w _
    · simp [List.all_append, find_llms_txt_headers_none w _, ih]

theorem stage12_headers_none (w : World) (url : String) :
    (stage12 w url).2.all noHdr = true := by
  unfold stage12
  dsimp only
  repeat' split
  all_goals
    simp [List.all_append, find_llms_txt_headers_none, find_docs_headers_none,
      stage2Loop_headers_none, fetch_markdown, noHdr]

theorem use_jina_reader_trace (w : World) (url : String) :
    (use_jina_reader w url).2 = [⟨jinaUrlOf url, some (jinaHeaders w.jinaKey)⟩] := rfl

theorem use_jina_headers_okH (w : World) (url : String) :
    (use_jina_reader w url).2.all (okH w.jinaKey) = true := by
  simp [use_jina_reader, fetch_markdown, okH]

theorem find_docs_headers_okH (w : World) (url : String) (c0 : Option String) :
    (find_docs_links_with_claude w url c0).2.all (okH w.jinaKey) = true :=
  all_okH_of_all_noHdr w.jinaKey _ (find_docs_headers_none w url c0)

theorem fetchBlocks_headers_okH (w : World) (ls : List Link) :
    (fetchBlocks w ls).2.all (okH w.jinaKey) = true :=
  all_okH_of_all_noHdr w.jinaKey _ (fetchBlocks_headers_none w ls)

theorem stage12_headers_okH (w : World) (url : String) :
    (stage12 w url).2.all (okH w.jinaKey) = true :=
  all_okH_of_all_noHdr w.jinaKey _ (stage12_headers_none w url)

theorem is_developer_tool_headers_ok (w : World) (url : String) :
    (is_developer_tool w url).2.all (okH w.jinaKey) = true := by
  unfold is_developer_tool
  dsimp only
  repeat' split
  all_goals simp [use_jina_reader, fetch_markdown, okH]

theorem stage3_headers_ok (w : World) (url query : String) :
    (stage3 w url query).2.all (okH w.jinaKey) = true := by
  unfold stage3
  dsimp only
  repeat' split
  all_goals
    simp [List.all_append, is_developer_tool_headers_ok, use_jina_headers_okH,
      find_docs_headers_okH, fetchBlocks_headers_okH]

theorem parse_headers_ok (w : World) (url query : String) :
    (parse_llms_txt w url query).2.all (okH w.jinaKey) = true := by
  unfold parse_llms_txt
  dsimp only
  repeat' split
  all_goals
    simp [List.all_append, stage12_headers_okH, fetchBlocks_headers_okH, stage3_headers_ok]


/-- C4 counterexample (claim as stated is false on the code): in a concrete
world, the Locator issues a non-empty sequence of manifest-candidate probes
and every one of them is issued with no caller-supplied headers at all
(`headers=None`), so none of them carries the `User-Agent` header; only the
content-cleaning-proxy request ever does. -/
theorem C4_counterexample :
    (find_llms_txt wFail ("https://example.com")).2.all noHdr = true ∧
    (find_llms_txt wFail ("https://example.com")).2 ≠ [] := by
  decide

/-- C4 amended: only the content-cleaning-proxy request carries the
module's `User-Agent` (plus the optional API-key header).  Every request
issued by the Locator is headerless (`headers=None`); so is every request
of the whole stage-1/2 trace, which includes the raw-page fetch and the
stage-2 probes; so is every per-link content fetch of the
fetch-and-format loop.  The proxy fetch is exactly one request carrying
the proxy headers, which always include the `User-Agent` pair.  Finally,
every request the whole pipeline ever issues is either headerless or
carries exactly the proxy headers. -/
theorem C4_amended_headers (w : World) (url query : String) :
    (find_llms_txt w url).2.all noHdr = true ∧
    (stage12 w url).2.all noHdr = true ∧
    (∀ ls : List Link, (fetchBlocks w ls).2.all noHdr = true) ∧
    (use_jina_reader w url).2 = [⟨jinaUrlOf url, some (jinaHeaders w.jinaKey)⟩] ∧
    ("User-Agent", USER_AGENT) ∈ jinaHeaders w.jinaKey ∧
    (parse_llms_txt w url query).2.all (okH w.jinaKey) = true :=
  ⟨find_llms_txt_headers_none w url, stage12_headers_none w url,
   fetchBlocks_headers_none w, use_jina_reader_trace w url,
   List.mem_cons_self _ _, parse_headers_ok w url query⟩

/-! ### C5 -/

/-- Shared helper: when stages 1 and 2 produce no truthy manifest and the
stage-3 gate does not lead to content (classifier false, or proxy content
falsy), the pipeline returns the terminal not-found message. -/
theorem parse_terminal_of_failures (w : World) (url query : String)
    (h12 : truthy (stage12 w url).1.1 = false)
    (h3 : (is_developer_tool w url).1 = false ∨ truthy (use_jina_reader w url).1 = false) :
    (parse_llms_txt w url query).1 = notFoundMsg url := by
  have hs3 : (stage3 w url query).1 = none := by
    unfold stage3
    dsimp only
    rcases h3 with h | h
    · simp [h]
    · simp only [h]
      simp only [Bool.false_eq_true, if_false]
      split <;> rfl
  unfold parse_llms_txt
  dsimp only
  simp [h12, hs3]

/-- C5: whenever every stage fails — no truthy manifest from stages 1 and 2,
and the classifier gate does not lead to content — the tool returns exactly
the fixed string naming the original caller-supplied URL.  The embedding is
a total function into `String`, so no exception or structured error object
can be produced. -/
theorem C5_terminal_message (w : World) (url query : String)
    (h12 : truthy (stage12 w url).1.1 = false)
    (h3 : (is_developer_tool w url).1 = false ∨ truthy (use_jina_reader w url).1 = false) :
    (parse_llms_txt w url query).1 = notFoundMsg url ∧
    (parse_llms_txt w url query).1 =
      "Could not find llms.txt or extract documentation from " ++ url ++ "." := by
  have h := parse_terminal_of_failures w url query h12 h3
  exact ⟨h, h⟩

/-- Witness for C5: with every fetch failing at transport level, the tool
invoked on `example.com` returns the fixed not-found message naming
`example.com`. -/
theorem C5_terminal_message_witness :
    (parse_llms_txt wFail ("example.com") ("q")).1 = notFoundMsg ("example.com") :=
  (C5_terminal_message wFail ("example.com") ("q") (by decide) (Or.inl (by decide))).1

/-! ### C6 -/

theorem fetchBlocks_fst (w : World) :
    ∀ ls : List Link, (fetchBlocks w ls).1 = ls.map (blockOf w) := by
  intro ls
  induction ls with
  | nil => rfl
  | cons l ls ih => simp [fetchBlocks, ih]

/-- C6: once a manifest was found by stage 1 or 2, the output is exactly the
newline-join of one formatted block per link returned by the Relevance
Ranker, in the order returned; a link whose fetch is truthy contributes its
title/description/content block and any other link contributes the
could-not-fetch placeholder. -/
theorem C6_aggregator_blocks (w : World) (url query : String)
    (h12 : truthy (stage12 w url).1.1 = true)
    (hne : w.llmLinks (rankPrompt ((stage12 w url).1.1.getD ("")) query) ≠ []) :
    (parse_llms_txt w url query).1 =
      joinNl ((w.llmLinks (rankPrompt ((stage12 w url).1.1.getD ("")) query)).map (blockOf w)) ∧
    ∀ l : Link,
      (truthy (fetch_markdown w l.url none).1 = true →
        blockOf w l = "# " ++ l.title ++ "\n" ++ l.description ++ "\n\n" ++
          ((fetch_markdown w l.url none).1.getD ("")) ++ "\n---\n") ∧
      (truthy (fetch_markdown w l.url none).1 = false →
        blockOf w l = "Could not fetch content from " ++ l.url ++ "\n---\n") := by
  constructor
  · have hfb := fetchBlocks_fst w (w.llmLinks (rankPrompt ((stage12 w url).1.1.getD ("")) query))
    have hne2 :
        ((w.llmLinks (rankPrompt ((stage12 w url).1.1.getD ("")) query)).map
          (blockOf w)).isEmpty = false := by
      cases hl : w.llmLinks (rankPrompt ((stage12 w url).1.1.getD ("")) query) with
      | nil => exact absurd hl hne
      | cons a as => simp
    unfold parse_llms_txt
    dsimp only
    simp [h12, hfb, hne2]
  · intro l
    constructor <;> intro h <;> simp [blockOf, h]

/-- A world exposing a manifest at `https://ex.com/llms.txt`, content at the
first ranked link only, and a ranker returning two links. -/
def wC6 : World :=
  { wFail with
    net := fun r =>
      if r.url == "https://ex.com/llms.txt" then HttpResult.response 200 ("manifest")
      else if r.url == "https://d1" then HttpResult.response 200 ("AAA")
      else HttpResult.failure
    llmLinks := fun _ => [⟨"https://d1", "T1", "D1"⟩, ⟨"https://d2", "T2", "D2"⟩] }

/-- Witness for C6: in `wC6` the output is the two blocks — a full block for
the fetchable first link, the placeholder for the unfetchable second —
joined by a newline, in ranker order. -/
theorem C6_aggregator_blocks_witness :
    (parse_llms_txt wC6 ("https://ex.com") ("q")).1 =
      joinNl ((wC6.llmLinks
        (rankPrompt ((stage12 wC6 ("https://ex.com")).1.1.getD ("")) ("q"))).map (blockOf wC6)) ∧
    (parse_llms_txt wC6 ("https://ex.com") ("q")).1 =
      "# T1\nD1\n\nAAA\n---\n\nCould not fetch content from https://d2\n---\n" :=
  ⟨(C6_aggregator_blocks wC6 ("https://ex.com") ("q") (by decide) (by decide)).1, by decide⟩

/-! ### C7 -/

/-- C7: both outbound prompts embed the page content truncated by
`takeS content 100000` — whose characters are exactly the first 100000
characters of the content (so its length is the minimum of 100000 and the
content length), and which is the content itself whenever the content is at
or under the budget. -/
theorem C7_truncation (url content : String) :
    docsPrompt url content = docsPre ++ takeS content 100000 ++ docsMid ++ url ++ docsPost ∧
    isDevPrompt content = isDevPre ++ takeS content 100000 ++ isDevPost ∧
    (takeS content 100000).data = content.data.take 100000 ∧
    (takeS content 100000).length = min 100000 content.length ∧
    (content.length ≤ 100000 → takeS content 100000 = content) := by
  refine ⟨rfl, rfl, rfl, ?_, ?_⟩
  · show (content.data.take 100000).length = min 100000 content.data.length
    exact List.length_take _ _
  · intro h
    unfold takeS
    rw [List.take_of_length_le h]

/-- Witness for C7: content of length three is at or under the budget, so
both prompts embed it unchanged. -/
theorem C7_truncation_witness :
    isDevPrompt ("abc") = isDevPre ++ ("abc") ++ isDevPost ∧
    docsPrompt ("u") ("abc") = docsPre ++ ("abc") ++ docsMid ++ ("u") ++ docsPost := by
  have h := C7_truncation ("u") ("abc")
  have ht : takeS ("abc") 100000 = ("abc") := h.2.2.2.2 (by decide)
  exact ⟨by rw [← ht]; exact h.2.1, by rw [← ht]; exact h.1⟩

/-! ### C8 -/

/-- C8: a manifest was found but the Relevance Ranker returns no links: the
tool returns the fixed nothing-relevant string, not the terminal not-found
message and not an exception (the embedding is total). -/
theorem C8_empty_ranking (w : World) (url query : String)
    (h12 : truthy (stage12 w url).1.1 = true)
    (hemp : w.llmLinks (rankPrompt ((stage12 w url).1.1.getD ("")) query) = []) :
    (parse_llms_txt w url query).1 = noRelevantMsg ∧
    (parse_llms_txt w url query).1 = "No relevant documentation found in llms.txt." ∧
    (parse_llms_txt w url query).1 ≠ notFoundMsg url := by
  have hout : (parse_llms_txt w url query).1 = noRelevantMsg := by
    unfold parse_llms_txt
    dsimp only
    simp [h12, hemp, fetchBlocks]
  refine ⟨hout, hout, ?_⟩
  rw [hout]
  unfold noRelevantMsg notFoundMsg
  intro hcontra
  have : ("No relevant documentation found in llms.txt.").data.length =
      ("Could not find llms.txt or extract documentation from " ++ url ++ ".").data.length := by
    rw [hcontra]
  simp [String.data_append] at this

/-- A world exposing a manifest at `https://ex.com/llms.txt` whose ranker
returns no links. -/
def wC8 : World :=
  { wFail with
    net := fun r =>
      if r.url == "https://ex.com/llms.txt" then HttpResult.response 200 ("manifest")
      else HttpResult.failure }

/-- Witness for C8: in `wC8` the manifest is found, the ranker returns the
empty list, and the output is the nothing-relevant message. -/
theorem C8_empty_ranking_witness :
    (parse_llms_txt wC8 ("https://ex.com") ("q")).1 = noRelevantMsg :=
  (C8_empty_ranking wC8 ("https://ex.com") ("q") (by decide) (by decide)).1

/-! ### C9 -/

/-- C9: a 2xx response with an empty body is distinct from a failed fetch at
the Fetcher (it returns `some ""`, not `none`) yet is treated identically to
failure by every consumer, because all of them test truthiness: in a world
where every request yields an empty-bodied 200, the Locator returns the
absent pair (an empty-bodied manifest candidate is never returned as found),
the whole pipeline falls through to the terminal message, and, generally,
an empty-bodied candidate makes the probing loop move on to the next
candidate. -/
theorem C9_empty_body_is_absence (w : World) (url query : String)
    (hnet : ∀ r, w.net r = HttpResult.response 200 ("")) :
    (fetch_markdown w url none).1 = some ("") ∧
    (find_llms_txt w url).1 = (none, none) ∧
    (parse_llms_txt w url query).1 = notFoundMsg url ∧
    (∀ (w' : World) (base p : String) (ps : List String),
      (check_path_exists w' base p).1 = some ("") →
      (findLoop w' base (p :: ps)).1 = (findLoop w' base ps).1) := by
  have htr : truthy (some ("")) = false := by decide
  have htn : truthy none = false := rfl
  have hsucc : is_success 200 = true := by decide
  have hfm : ∀ (u : String) (h : Option (List (String × String))),
      (fetch_markdown w u h).1 = some ("") := by
    intro u h
    simp [fetch_markdown, hnet, hsucc]
  have hloop : ∀ base ps, (findLoop w base ps).1 = (none, none) := by
    intro base ps
    induction ps with
    | nil => rfl
    | cons p ps ih => simp [findLoop, check_path_exists, hfm, htr, ih]
  have hfind : ∀ u, (find_llms_txt w u).1 = (none, none) := by
    intro u
    unfold find_llms_txt
    dsimp only
    simp only [hloop, hfm, htr, htn, Bool.false_eq_true, if_false]
    split <;> rfl
  have h12f : truthy (stage12 w url).1.1 = false := by
    unfold stage12
    dsimp only
    simp [hfind, hfm, htr, htn]
  have hdev : (is_developer_tool w url).1 = false := by
    unfold is_developer_tool
    dsimp only
    simp [use_jina_reader, hfm, htr]
  refine ⟨hfm url none, hfind url,
    parse_terminal_of_failures w url query h12f (Or.inl hdev), ?_⟩
  intro w' base p ps h
  simp [findLoop, h, htr]

/-- Witness for C9: in the all-empty-200 world the Fetcher returns the empty
string, the Locator returns the absent pair, the pipeline returns the
terminal message, and a concrete empty-bodied candidate is skipped. -/
theorem C9_empty_body_is_absence_witness :
    (fetch_markdown wEmpty ("u") none).1 = some ("") ∧
    (find_llms_txt wEmpty ("u")).1 = (none, none) ∧
    (parse_llms_txt wEmpty ("u") ("q")).1 = notFoundMsg ("u") ∧
    (findLoop wEmpty ("b") (("p") :: [])).1 = (findLoop wEmpty ("b") []).1 := by
  have h := C9_empty_body_is_absence wEmpty ("u") ("q") (fun r => rfl)
  exact ⟨h.1, h.2.1, h.2.2.1, h.2.2.2 wEmpty ("b") ("p") [] (by decide)⟩

/-! ### C10 -/

/-- A world whose link extractor returns a single root-relative link. -/
def wC10 : World := { wFail with llmLinks := fun _ => [⟨"/x", "T", "D"⟩] }

/-- C10 counterexample (claim as stated is false on the code): the
caller-supplied URL `example.com/a/b` lacks an http/https scheme, yet it
splits into three slash-separated parts, so the post-processing does NOT
leave the root-relative link `/x` unresolved: it prefixes the join of the
first three parts — the whole scheme-less URL — producing
`example.com/a/b/x`. -/
theorem C10_counterexample :
    ((find_docs_links_with_claude wC10 ("example.com/a/b") (some ("content"))).1.map Link.url =
      ["example.com/a/b/x"]) ∧
    ((find_docs_links_with_claude wC10 ("example.com/a/b") (some ("content"))).1.map Link.url ≠
      ["/x"]) := by
  decide

/-- C10 amended: when the caller-supplied URL splits into fewer than three
slash-separated parts (as scheme-less URLs with at most one slash do, e.g.
`example.com/start`), the post-processing leaves every root-relative
discovered link unresolved — no `scheme://host` base is derived and the
link URL stays the relative string — and the extractor returns exactly the
model's links mapped through this resolution. -/
theorem C10_amended_short_urls (w : World) (url c : String) (link : Link)
    (h1 : startsWithS link.url ("/") = true)
    (h2 : startsWithS link.url ("http://") = false)
    (h3 : startsWithS link.url ("https://") = false)
    (h4 : (splitSlash url).length < 3)
    (hc : truthy (some c) = true) :
    resolveLink url link = link ∧
    (find_docs_links_with_claude w url (some c)).1 =
      (w.llmLinks (docsPrompt url c)).map (resolveLink url) := by
  constructor
  · unfold resolveLink
    simp [h1, h2, h3, show ¬3 ≤ (splitSlash url).length by omega]
  · unfold find_docs_links_with_claude
    dsimp only
    simp [hc]

/-- Witness for C10's amended statement: on `example.com/start` (two
slash-parts) the root-relative link `/x` is left untouched. -/
theorem C10_amended_short_urls_witness :
    resolveLink ("example.com/start") ⟨"/x", "T", "D"⟩ = ⟨"/x", "T", "D"⟩ ∧
    (find_docs_links_with_claude wC10 ("example.com/start") (some ("content"))).1 =
      (wC10.llmLinks (docsPrompt ("example.com/start") ("content"))).map
        (resolveLink ("example.com/start")) :=
  C10_amended_short_urls wC10 ("example.com/start") ("content") ⟨"/x", "T", "D"⟩
    (by decide) (by decide) (by decide) (by decide) (by decide)

end McpLlms
